import Mathlib

/-!
Verification of the FinanciaUNT rule-based financial analysis core.

The definitions below are a shallow embedding of the Python source:

* `DataValidator.validar_transaccion` and its helpers (src/db_helpers.py, lines 18-75),
* `DataAnalyzer.analizar_transacciones`, `detectar_gastos_inusuales`,
  `calcular_tendencia` (src/db_helpers.py, lines 117-207),
* `AlertGenerator.verificar_presupuestos` (src/db_helpers.py, lines 212-263),
* `AsesorFinanciero.get_analisis_ia` (src/app.py, lines 200-264).

Modelling conventions:

* Python floats are idealised as exact rationals (`ℚ`).  Where the source can
  produce a non-finite float (division by a zero budget ceiling giving
  `inf`/`-inf`/`NaN`), the affected percentage is modelled as `Option ℚ`
  with `none` standing for the non-finite value; the comparison made by the
  source on such a value (`porcentaje >= 80`, reachable only when the spend
  is `<= 0`, where the float is `NaN` or `-inf`) is false, matching the
  `none` case below.
* pandas `DataFrame`s become `List`s of records; `df.empty` becomes
  `List.isEmpty`; boolean-mask filtering becomes `List.filter`;
  `groupby('categoria')['monto'].sum()` becomes the list of
  `(category, summed amount)` pairs indexed by the sorted distinct
  categories (pandas sorts group keys); `idxmax` takes the first maximum.
* dates: the source stores dates as `YYYY-MM-DD` strings and converts them
  with `pd.to_datetime` to timestamps.  A date is modelled by `Fecha`:
  either still a raw string (`Fecha.texto`) or a converted timestamp
  (`Fecha.fecha`, a count of days since 1970-01-01 computed by the standard
  civil-calendar conversion).  `datetime.now()` becomes an explicit
  `ahora : ℤ` parameter in the same day scale.
* the in-place column assignment
  `df_transacciones['fecha'] = pd.to_datetime(df_transacciones['fecha'])`
  performed by `calcular_tendencia` mutates the caller's frame, so that
  function is embedded in state-passing style: it returns its result
  together with the post-call state of the transactions passed in.  The
  remaining embedded functions perform no assignment to their inputs and
  are embedded as plain pure functions.
-/

namespace FinanciaUNT

/-- Date values as they live in a pandas column: either a raw `YYYY-MM-DD`
string (as stored in the database) or a timestamp produced by
`pd.to_datetime`, counted in days since the epoch. -/
inductive Fecha where
  | texto (s : String)
  | fecha (d : ℤ)
deriving DecidableEq, Repr

/-- One row of the `transacciones` table (src/init_database.py schema):
owner, amount, category, description, date and type (`"ingreso"`/`"gasto"`). -/
structure Transaccion where
  id : String
  usuario_id : String
  monto : ℚ
  categoria : String
  descripcion : String
  fecha : Fecha
  tipo : String
deriving DecidableEq, Repr

/-- One row of the `presupuestos` table: owner, category, spending ceiling
and period. -/
structure Presupuesto where
  id : String
  usuario_id : String
  categoria : String
  monto_maximo : ℚ
  periodo : String
deriving DecidableEq, Repr

/-! ### Validator (src/db_helpers.py, class DataValidator) -/

/-- Decimal digit test on a character, by code point (`'0'` to `'9'`). -/
def esDigito (c : Char) : Bool :=
  decide (48 ≤ c.toNat) && decide (c.toNat ≤ 57)

/-- Nonempty all-digit character group. -/
def sonDigitos (l : List Char) : Bool :=
  !l.isEmpty && l.all esDigito

/-- Value of an all-digit character group read in base 10. -/
def valorDigitos (l : List Char) : ℕ :=
  l.foldl (fun n c => n * 10 + (c.toNat - 48)) 0

/-- Splits a character list at every occurrence of the separator, keeping
empty groups, exactly like Python's `str.split(sep)`. -/
def particionar (sep : Char) : List Char → List (List Char)
  | [] => [[]]
  | c :: resto =>
    match particionar sep resto with
    | [] => [[]]
    | grupo :: demas =>
      if c = sep then [] :: grupo :: demas else (c :: grupo) :: demas

/-- Leap-year test of the Gregorian calendar, as `datetime` uses. -/
def esBisiesto (anio : ℤ) : Bool :=
  anio % 4 = 0 && (!(anio % 100 = 0) || anio % 400 = 0)

/-- Number of days in a month of a given year. -/
def diasEnMes (anio : ℤ) (mes : ℕ) : ℕ :=
  if mes = 2 then (if esBisiesto anio then 29 else 28)
  else if mes = 4 ∨ mes = 6 ∨ mes = 9 ∨ mes = 11 then 30
  else 31

/-- Day group of CPython's `%d` pattern
`3[01]|[12]\d|0[1-9]|[1-9]| [1-9]`: every one- or two-digit group (values
above 31 fail its alternatives, and fail the later calendar validation
either way), plus a single space followed by a nonzero digit, an
alternative CPython keeps for ANSI C `%c` compatibility.  Returns the day
value, validated against the month afterwards. -/
def grupoDia (l : List Char) : Option ℕ :=
  if sonDigitos l ∧ l.length ≤ 2 then some (valorDigitos l)
  else
    match l with
    | [espacio, c] =>
      if espacio = ' ' ∧ 49 ≤ c.toNat ∧ c.toNat ≤ 57 then some (c.toNat - 48)
      else none
    | _ => none

/-- Embeds the `datetime.strptime(fecha, "%Y-%m-%d")` parse used by
`DataValidator.validar_fecha`, following CPython's compiled patterns: the
year group is exactly four digits (`%Y` is `\d\d\d\d`, so years below 1000
must be zero-filled) and at least 1 (`datetime.MINYEAR`); the month group
is one or two digits valued `1..12` (`1[0-2]|0[1-9]|[1-9]`); the day group
follows `grupoDia` and must be valid for the month and year.  Returns the
parsed `(year, month, day)` or `none` where `strptime` raises
`ValueError`. -/
def parsearFechaYMD (s : String) : Option (ℤ × ℕ × ℕ) :=
  match particionar ('-') s.toList with
  | [ga, gm, gd] =>
    if sonDigitos ga ∧ ga.length = 4 ∧ sonDigitos gm ∧ gm.length ≤ 2 then
      match grupoDia gd with
      | some d =>
        let a := valorDigitos ga
        let m := valorDigitos gm
        if 1 ≤ a ∧ 1 ≤ m ∧ m ≤ 12 ∧ 1 ≤ d ∧ d ≤ diasEnMes a m then
          some ((a : ℤ), m, d)
        else none
      | none => none
    else none
  | _ => none

/-- Days since 1970-01-01 of a Gregorian calendar date, by the standard
civil-calendar conversion (floor division, which `ℤ` division provides for
the positive divisors used here). -/
def diasDesdeEpoca (anio : ℤ) (mes dia : ℕ) : ℤ :=
  let a := if mes ≤ 2 then anio - 1 else anio
  let era := a / 400
  let aDeEra := a - era * 400
  let diaDeAnio := ((153 * ((mes + 9) % 12) + 2) / 5 + dia - 1 : ℕ)
  let diaDeEra := aDeEra * 365 + aDeEra / 4 - aDeEra / 100 + (diaDeAnio : ℤ)
  era * 146097 + diaDeEra - 719468

/-- Timestamp of a `Fecha` value: a converted date keeps its day count; a raw
string is parsed as `pd.to_datetime` parses a `YYYY-MM-DD` column (invalid
text, on which the library would raise, is mapped to day `0`). -/
def valorFecha : Fecha → ℤ
  | .fecha d => d
  | .texto s =>
    match parsearFechaYMD s with
    | some (a, m, d) => diasDesdeEpoca a m d
    | none => 0

/-- Column assignment performed by `calcular_tendencia` on its input frame:
`df_transacciones['fecha'] = pd.to_datetime(df_transacciones['fecha'])`
replaces every date by its converted timestamp. -/
def actualizarFecha (t : Transaccion) : Transaccion :=
  { t with fecha := .fecha (valorFecha t.fecha) }

/-! ### Grouping (`groupby('categoria')['monto'].sum()`) -/

/-- Code-point lexicographic order on character lists, the order Python uses
to compare the strings that pandas sorts group keys with. -/
def cadenaMenorIgualLista : List Char → List Char → Bool
  | [], _ => true
  | _ :: _, [] => false
  | a :: resto₁, b :: resto₂ =>
    if a.toNat < b.toNat then true
    else if b.toNat < a.toNat then false
    else cadenaMenorIgualLista resto₁ resto₂

/-- Code-point lexicographic order on strings. -/
def cadenaMenorIgual (a b : String) : Bool :=
  cadenaMenorIgualLista a.toList b.toList

/-- Sorted insertion of a string into an ascending list. -/
def insertarOrdenado (a : String) : List String → List String
  | [] => [a]
  | b :: resto =>
    if cadenaMenorIgual a b then a :: b :: resto else b :: insertarOrdenado a resto

/-- Ascending sort of a list of strings (insertion sort; the distinct group
keys have one ascending arrangement, the one pandas `groupby` yields). -/
def ordenarCadenas : List String → List String
  | [] => []
  | a :: resto => insertarOrdenado a (ordenarCadenas resto)

/-- Sum of the `monto` column of a list of transactions. -/
def sumaMontos (l : List Transaccion) : ℚ :=
  (l.map (·.monto)).sum

/-- Distinct categories of a list of transactions in ascending order: the
index of the `groupby('categoria')` result. -/
def categoriasOrdenadas (l : List Transaccion) : List String :=
  ordenarCadenas (l.map (·.categoria)).dedup

/-- Embeds `groupby('categoria')['monto'].sum()`: per-category summed
amounts, indexed by the sorted distinct categories. -/
def gastosPorCategoria (l : List Transaccion) : List (String × ℚ) :=
  (categoriasOrdenadas l).map fun c => (c, sumaMontos (l.filter (·.categoria == c)))

/-- Series lookup `serie[categoria]` together with the membership test
`categoria in serie.index`: `some` sum when present, `none` otherwise. -/
def buscarCategoria (c : String) (serie : List (String × ℚ)) : Option ℚ :=
  (serie.find? (·.1 == c)).map (·.2)

/-- Embeds `Series.idxmax` paired with the max value: first entry carrying
the largest value, `none` on an empty series. -/
def parMaximo (serie : List (String × ℚ)) : Option (String × ℚ) :=
  serie.foldl
    (fun acc par =>
      match acc with
      | none => some par
      | some mejor => if mejor.2 < par.2 then some par else some mejor)
    none

/-! ### Analyzer (src/db_helpers.py, class DataAnalyzer) -/

/-- Result shape of `analizar_transacciones`.  The source returns a dict; the
`monto_categoria_max` key is absent from the empty-input dict, hence the
`Option` (`none` = key absent). -/
structure Analisis where
  total_transacciones : ℕ
  total_ingresos : ℚ
  total_gastos : ℚ
  balance : ℚ
  promedio_gasto : ℚ
  categoria_mas_gasto : Option String
  monto_categoria_max : Option ℚ
deriving DecidableEq, Repr

/-- Embeds `DataAnalyzer.analizar_transacciones` (src/db_helpers.py, lines
120-150). -/
def analizar_transacciones (ts : List Transaccion) : Analisis :=
  if ts.isEmpty then ⟨0, 0, 0, 0, 0, none, none⟩
  else
    let filasGasto := ts.filter (·.tipo == "gasto")
    let ingresos := sumaMontos (ts.filter (·.tipo == "ingreso"))
    let gastos := sumaMontos filasGasto
    let porCategoria := gastosPorCategoria filasGasto
    { total_transacciones := ts.length
      total_ingresos := ingresos
      total_gastos := gastos
      balance := ingresos - gastos
      promedio_gasto := if filasGasto.isEmpty then 0 else gastos / filasGasto.length
      categoria_mas_gasto := (parMaximo porCategoria).map (·.1)
      monto_categoria_max := some (((porCategoria.map (·.2)).max?).getD 0) }

/-- Outlier condition of `detectar_gastos_inusuales`.  The source compares
`monto > media + umbral * std` where `std` is the float square root of the
sample variance; for the nonnegative threshold the source uses (default
`2.0`) this is equivalent to the squared comparison below, which stays in
exact rational arithmetic (`esGastoInusual_iff_raiz` proves the
equivalence). -/
def esGastoInusual (monto media varianza umbral : ℚ) : Bool :=
  decide (media < monto) && decide (umbral ^ 2 * varianza < (monto - media) ^ 2)

/-- Embeds `DataAnalyzer.detectar_gastos_inusuales` (src/db_helpers.py, lines
152-166): mean and sample variance (pandas `std()`, `ddof=1`) over the
expense rows, keeping rows strictly above `media + umbral·σ`.  With a single
expense row the pandas deviation is `NaN` and the comparison is false; here
the `ℚ` variance degenerates to division by zero and the deviation from the
mean is zero, so no row is kept either. -/
def detectar_gastos_inusuales (ts : List Transaccion) (umbral : ℚ) :
    List Transaccion :=
  let filasGasto := ts.filter (·.tipo == "gasto")
  if filasGasto.isEmpty then []
  else
    let media := sumaMontos filasGasto / filasGasto.length
    let varianza :=
      ((filasGasto.map fun t => (t.monto - media) ^ 2).sum) /
        ((filasGasto.length : ℚ) - 1)
    filasGasto.filter fun t => esGastoInusual t.monto media varianza umbral

/-- Result shape of `calcular_tendencia`.  The two early-return dicts of the
source carry no `gasto_periodo_1`/`gasto_periodo_2` keys, hence the
`Option` fields (`none` = key absent). -/
structure Tendencia where
  tendencia : String
  variacion_porcentual : ℚ
  gasto_periodo_1 : Option ℚ
  gasto_periodo_2 : Option ℚ
deriving DecidableEq, Repr

/-- Round-half-to-even of a rational to an integer, what Python's `round`
computes on the exact value. -/
def redondearMitadPar (x : ℚ) : ℤ :=
  let n := x.floor
  if x - n < 1 / 2 then n
  else if 1 / 2 < x - n then n + 1
  else if n % 2 = 0 then n else n + 1

/-- Embeds `round(variacion, 2)`. -/
def redondear2 (x : ℚ) : ℚ :=
  (redondearMitadPar (x * 100) : ℚ) / 100

/-- Embeds `DataAnalyzer.calcular_tendencia` (src/db_helpers.py, lines
168-207) in state-passing style: the second component is the post-call state
of the caller's transactions, whose `fecha` column the source reassigns in
place with `pd.to_datetime` before any filtering (the empty-input early
return precedes the assignment, so there the input is returned untouched).
`ahora` stands for `datetime.now()`; the two window bounds are
`ahora - dias` and `ahora - dias / 2` with Python floor division. -/
def calcular_tendencia (ts : List Transaccion) (dias : ℕ) (ahora : ℤ) :
    Tendencia × List Transaccion :=
  if ts.isEmpty then (⟨"neutral", 0, none, none⟩, ts)
  else
    let ts2 := ts.map actualizarFecha
    let fechaLimite : ℤ := ahora - dias
    let fechaMitad : ℤ := ahora - (dias / 2 : ℕ)
    let primeraMitad := sumaMontos (ts2.filter fun t =>
      decide (fechaLimite ≤ valorFecha t.fecha) &&
      decide (valorFecha t.fecha < fechaMitad) && (t.tipo == "gasto"))
    let segundaMitad := sumaMontos (ts2.filter fun t =>
      decide (fechaMitad ≤ valorFecha t.fecha) && (t.tipo == "gasto"))
    if primeraMitad = 0 then (⟨"sin_datos", 0, none, none⟩, ts2)
    else
      let variacion := (segundaMitad - primeraMitad) / primeraMitad * 100
      let clase :=
        if 10 < variacion then "creciente"
        else if variacion < -10 then "decreciente"
        else "estable"
      (⟨clase, redondear2 variacion, some primeraMitad, some segundaMitad⟩, ts2)

/-! ### Alert Rule Engine (src/db_helpers.py, class AlertGenerator) -/

/-- Alert record appended by `verificar_presupuestos`.  The source dict
carries `tipo`, `severidad`, `mensaje`, `categoria`, `gasto_actual` and
`limite`; the message interpolates the overage `gasto_actual - limite`
(exceeded case only) and the utilization percentage, modelled here by the
`exceso` and `porcentaje` fields.  `porcentaje = none` stands for the
non-finite float that `(gasto_actual / limite) * 100` produces on a zero
ceiling. -/
structure Alerta where
  tipo : String
  severidad : String
  categoria : String
  gasto_actual : ℚ
  limite : ℚ
  porcentaje : Option ℚ
  exceso : Option ℚ
deriving DecidableEq, Repr

/-- Comparison `porcentaje >= 80` of the source.  A `none` percentage arises
only from a zero ceiling; in the `elif` where this comparison runs the spend
is at most the zero ceiling, so the float value is `NaN` (spend `= 0`) or
`-inf` (spend `< 0`), and either compares `>= 80` as false, matching the
`none` branch. -/
def porcentajeAlMenos80 : Option ℚ → Bool
  | some p => decide (80 ≤ p)
  | none => false

/-- Per-budget-row body of the `verificar_presupuestos` loop: skip the row
when its category has no expense group, otherwise emit the exceeded /
near-limit / no alert found by the `>` then `>= 80%` cascade. -/
def alertaPresupuesto (porCategoria : List (String × ℚ)) (p : Presupuesto) :
    Option Alerta :=
  match buscarCategoria p.categoria porCategoria with
  | none => none
  | some gastoActual =>
    let porcentaje : Option ℚ :=
      if p.monto_maximo = 0 then none
      else some (gastoActual / p.monto_maximo * 100)
    if p.monto_maximo < gastoActual then
      some ⟨"presupuesto_excedido", "alta", p.categoria, gastoActual,
        p.monto_maximo, porcentaje, some (gastoActual - p.monto_maximo)⟩
    else if porcentajeAlMenos80 porcentaje then
      some ⟨"presupuesto_cerca_limite", "media", p.categoria, gastoActual,
        p.monto_maximo, porcentaje, none⟩
    else none

/-- Expense rows of one user: the
`(usuario_id == usuario_id) & (tipo == 'gasto')` mask of the source. -/
def gastosUsuario (ts : List Transaccion) (usuarioId : String) :
    List Transaccion :=
  ts.filter fun t => t.usuario_id == usuarioId && t.tipo == "gasto"

/-- Embeds `AlertGenerator.verificar_presupuestos` (src/db_helpers.py, lines
212-263): early returns on an empty frame or no user expenses, then one
loop pass per budget row of the user, appending at most one alert each. -/
def verificar_presupuestos (ts : List Transaccion) (ps : List Presupuesto)
    (usuarioId : String) : List Alerta :=
  if ts.isEmpty || ps.isEmpty then []
  else
    let gastosDelUsuario := gastosUsuario ts usuarioId
    if gastosDelUsuario.isEmpty then []
    else
      (ps.filter (·.usuario_id == usuarioId)).filterMap
        (alertaPresupuesto (gastosPorCategoria gastosDelUsuario))

/-! ### Financial Advisor (src/app.py, class AsesorFinanciero) -/

/-- Summary block of the advisor result. -/
structure Resumen where
  total_ingresos : ℚ
  total_gastos : ℚ
  ahorro_neto : ℚ
  tasa_ahorro : ℚ
deriving DecidableEq, Repr

/-- Projection block of the advisor result. -/
structure Predicciones where
  ahorro_3_meses : ℚ
  proyeccion_gastos : ℚ
deriving DecidableEq, Repr

/-- Recommendation strings appended by `get_analisis_ia`, one constructor
per literal message (`mayor_gasto` interpolates the top expense category). -/
inductive Recomendacion where
  | sin_datos
  | aumentar_ahorro
  | excelente_ahorro
  | mayor_gasto (categoria : String)
  | continua_registrando
deriving DecidableEq, Repr

/-- Alert strings appended by the advisor's internal budget check, one
constructor per f-string: `cerca` for the near-limit wording
(`Gastos en ... al ...% del presupuesto`) and `excedido` for the exceeded
wording (`¡Presupuesto excedido en ...!`).  Both interpolate the
percentage; `none` stands for the non-finite float produced by a zero
budget ceiling. -/
inductive AlertaIA where
  | cerca (categoria : String) (porcentaje : Option ℚ)
  | excedido (categoria : String) (porcentaje : Option ℚ)
deriving DecidableEq, Repr

/-- Discriminator for the exceeded wording. -/
def AlertaIA.esExcedido : AlertaIA → Bool
  | .excedido _ _ => true
  | .cerca _ _ => false

/-- Result shape of `get_analisis_ia`. -/
structure AnalisisIA where
  resumen : Resumen
  recomendaciones : List Recomendacion
  alertas : List AlertaIA
  predicciones : Predicciones
deriving DecidableEq, Repr

/-- Embeds `presupuestos.set_index('categoria')['monto_maximo'].to_dict()`
followed by the `categoria in presupuestos_dict` lookup: with duplicate
categories the dict keeps the last row, hence the reverse search. -/
def presupuestoDeCategoria (ps : List Presupuesto) (c : String) : Option ℚ :=
  (ps.reverse.find? (·.categoria == c)).map (·.monto_maximo)

/-- Per-category body of the advisor's internal budget check: percentage of
budget used, then the `> 90` near-limit branch checked before the `> 100`
exceeded branch.  A zero ceiling gives float `inf` for a positive spend
(which satisfies `> 90`, so the near-limit wording is emitted with a
non-finite percentage) and `NaN`/`-inf` otherwise (no branch taken). -/
def alertaAsesor (ps : List Presupuesto) (c : String) (gasto : ℚ) :
    Option AlertaIA :=
  match presupuestoDeCategoria ps c with
  | none => none
  | some presupuesto =>
    if presupuesto = 0 then
      if 0 < gasto then some (.cerca c none) else none
    else
      let porcentaje := gasto / presupuesto * 100
      if 90 < porcentaje then some (.cerca c (some porcentaje))
      else if 100 < porcentaje then some (.excedido c (some porcentaje))
      else none

/-- Embeds `AsesorFinanciero.get_analisis_ia` (src/app.py, lines 200-264).
The growth factors `1.05` and `1.02` are the rationals `21/20` and
`51/50`. -/
def get_analisis_ia (ts : List Transaccion) (ps : List Presupuesto) :
    AnalisisIA :=
  if ts.isEmpty then
    ⟨⟨0, 0, 0, 0⟩, [.sin_datos], [], ⟨0, 0⟩⟩
  else
    let porCategoria := gastosPorCategoria (ts.filter (·.tipo == "gasto"))
    let totalGastos := (porCategoria.map (·.2)).sum
    let totalIngresos := sumaMontos (ts.filter (·.tipo == "ingreso"))
    let alertas :=
      if ps.isEmpty then []
      else porCategoria.filterMap fun par => alertaAsesor ps par.1 par.2
    let recomendacionesAhorro :=
      if 0 < totalIngresos then
        let tasaAhorro := (totalIngresos - totalGastos) / totalIngresos * 100
        if tasaAhorro < 10 then [Recomendacion.aumentar_ahorro]
        else if 30 < tasaAhorro then [Recomendacion.excelente_ahorro]
        else []
      else []
    let recomendacionesTope :=
      match parMaximo porCategoria with
      | some par => [Recomendacion.mayor_gasto par.1]
      | none => []
    let recomendaciones := recomendacionesAhorro ++ recomendacionesTope
    { resumen :=
        { total_ingresos := totalIngresos
          total_gastos := totalGastos
          ahorro_neto := totalIngresos - totalGastos
          tasa_ahorro :=
            if 0 < totalIngresos then
              (totalIngresos - totalGastos) / totalIngresos * 100
            else 0 }
      recomendaciones :=
        if recomendaciones.isEmpty then [.continua_registrando] else recomendaciones
      alertas := alertas
      predicciones :=
        { ahorro_3_meses := (totalIngresos - totalGastos) * 3 * (21 / 20)
          proyeccion_gastos := totalGastos * (51 / 50) } }

/-! ### Helper lemmas -/

/-- Sorted insertion permutes to consing. -/
lemma insertarOrdenado_perm (a : String) (l : List String) :
    (insertarOrdenado a l).Perm (a :: l) := by
  induction l with
  | nil => exact List.Perm.refl _
  | cons b resto ih =>
    unfold insertarOrdenado
    split
    · exact List.Perm.refl _
    · exact (ih.cons b).trans (List.Perm.swap a b resto)

/-- Insertion sort permutes its input. -/
lemma ordenarCadenas_perm (l : List String) : (ordenarCadenas l).Perm l := by
  induction l with
  | nil => exact List.Perm.refl _
  | cons a resto ih =>
    exact (insertarOrdenado_perm a (ordenarCadenas resto)).trans (ih.cons a)

/-- The sorted distinct categories carry no duplicate. -/
lemma categoriasOrdenadas_nodup (l : List Transaccion) :
    (categoriasOrdenadas l).Nodup :=
  (ordenarCadenas_perm _).symm.nodup (List.nodup_dedup _)

/-- A transaction's category is among the sorted distinct categories. -/
lemma categoria_mem_categoriasOrdenadas {t : Transaccion} {l : List Transaccion}
    (h : t ∈ l) : t.categoria ∈ categoriasOrdenadas l :=
  (ordenarCadenas_perm _).mem_iff.mpr
    (List.mem_dedup.mpr (List.mem_map.mpr ⟨t, h, rfl⟩))

/-- Pointwise sum of two mapped functions splits. -/
lemma suma_map_suma {α : Type} (l : List α) (f g : α → ℚ) :
    (l.map fun a => f a + g a).sum = (l.map f).sum + (l.map g).sum := by
  induction l with
  | nil => simp
  | cons a resto ih => simp [ih]; ring

/-- Sum of a single-key indicator over keys not containing it. -/
lemma suma_indicadora_ausente (cs : List String) (k : String) (v : ℚ)
    (h : k ∉ cs) :
    (cs.map fun c => if k = c then v else 0).sum = 0 := by
  induction cs with
  | nil => simp
  | cons c resto ih =>
    have hkc : k ≠ c := fun he => h (he ▸ List.mem_cons_self c resto)
    have hkr : k ∉ resto := fun hm => h (List.mem_cons_of_mem c hm)
    simp [hkc, ih hkr]

/-- Sum of a single-key indicator over duplicate-free keys containing it. -/
lemma suma_indicadora (cs : List String) (k : String) (v : ℚ)
    (hnd : cs.Nodup) (hk : k ∈ cs) :
    (cs.map fun c => if k = c then v else 0).sum = v := by
  induction cs with
  | nil => cases hk
  | cons c resto ih =>
    rcases List.nodup_cons.mp hnd with ⟨hc, hndr⟩
    rcases List.mem_cons.mp hk with he | hm
    · subst he
      simp [suma_indicadora_ausente resto k v hc]
    · have hkc : k ≠ c := fun he => hc (he ▸ hm)
      simp [hkc, ih hndr hm]

/-- Summing the per-category group sums over any duplicate-free key list
covering every row recovers the total: the partition property of
`groupby('categoria')['monto'].sum()`. -/
lemma suma_por_categorias (cs : List String) (gs : List Transaccion)
    (hnd : cs.Nodup) (hcov : ∀ t ∈ gs, t.categoria ∈ cs) :
    (cs.map fun c => sumaMontos (gs.filter (·.categoria == c))).sum =
      sumaMontos gs := by
  induction gs with
  | nil =>
    apply List.sum_eq_zero
    intro x hx
    rcases List.mem_map.mp hx with ⟨c, _, hc⟩
    simpa [sumaMontos] using hc.symm
  | cons t resto ih =>
    have ht : t.categoria ∈ cs := hcov t (List.mem_cons_self t resto)
    have hcovr : ∀ u ∈ resto, u.categoria ∈ cs :=
      fun u hu => hcov u (List.mem_cons_of_mem t hu)
    have hpunto :
        (cs.map fun c => sumaMontos ((t :: resto).filter (·.categoria == c))) =
          cs.map fun c =>
            (if t.categoria = c then t.monto else 0) +
              sumaMontos (resto.filter (·.categoria == c)) := by
      apply List.map_congr_left
      intro c _
      rw [List.filter_cons]
      by_cases hc2 : t.categoria = c
      · simp [hc2, sumaMontos]
      · simp [hc2, sumaMontos]
    rw [hpunto, suma_map_suma, suma_indicadora cs t.categoria t.monto hnd ht,
      ih hcovr]
    simp [sumaMontos]

/-- The advisor's `gastos_por_categoria.sum()` equals the plain sum of the
expense amounts. -/
lemma gastosPorCategoria_suma (gs : List Transaccion) :
    ((gastosPorCategoria gs).map (·.2)).sum = sumaMontos gs := by
  unfold gastosPorCategoria
  rw [List.map_map]
  exact suma_por_categorias _ gs (categoriasOrdenadas_nodup gs)
    (fun t ht => categoria_mem_categoriasOrdenadas ht)

/-- On an empty group series every budget row is skipped. -/
lemma alertaPresupuesto_vacio (p : Presupuesto) : alertaPresupuesto [] p = none :=
  rfl

/-- The budget-check loop, written as one `filterMap` over the user's budget
rows: the early returns of `verificar_presupuestos` coincide with the cases
where every row is skipped, so the equation holds unconditionally. -/
lemma verificar_presupuestos_eq_filterMap (ts : List Transaccion)
    (ps : List Presupuesto) (usuarioId : String) :
    verificar_presupuestos ts ps usuarioId =
      (ps.filter (·.usuario_id == usuarioId)).filterMap
        (alertaPresupuesto (gastosPorCategoria (gastosUsuario ts usuarioId))) := by
  unfold verificar_presupuestos
  by_cases h1 : ts.isEmpty
  · rw [List.isEmpty_iff.mp h1]
    simp [gastosUsuario, gastosPorCategoria, categoriasOrdenadas, ordenarCadenas,
      List.filterMap_eq_nil_iff, alertaPresupuesto_vacio]
  · by_cases h2 : ps.isEmpty
    · rw [List.isEmpty_iff.mp h2]
      simp [h1]
    · by_cases h3 : (gastosUsuario ts usuarioId).isEmpty
      · have hgu : gastosUsuario ts usuarioId = [] := List.isEmpty_iff.mp h3
        simp [h1, h2, h3, hgu, gastosPorCategoria, categoriasOrdenadas,
          ordenarCadenas, List.filterMap_eq_nil_iff, alertaPresupuesto_vacio]
      · simp [h1, h2, h3]

/-- For a positive ceiling, the `>= 80%` comparison of the source is the
spend being at least four fifths of the ceiling. -/
lemma porcentaje_iff_cuatro_quintos {limite g : ℚ} (hm : 0 < limite) :
    80 ≤ g / limite * 100 ↔ 4 / 5 * limite ≤ g := by
  rw [div_mul_eq_mul_div, le_div_iff₀ hm]
  constructor <;> intro h <;> linarith

/-- Cascade of the `verificar_presupuestos` loop body on a positive ceiling
whose category is present: exceeded above the ceiling, near-limit from 80%
of the ceiling up to it, nothing below. -/
lemma alertaPresupuesto_spec (porCategoria : List (String × ℚ))
    (p : Presupuesto) (g : ℚ)
    (hb : buscarCategoria p.categoria porCategoria = some g)
    (hm : 0 < p.monto_maximo) :
    alertaPresupuesto porCategoria p =
      if p.monto_maximo < g then
        some ⟨"presupuesto_excedido", "alta", p.categoria, g, p.monto_maximo,
          some (g / p.monto_maximo * 100), some (g - p.monto_maximo)⟩
      else if 4 / 5 * p.monto_maximo ≤ g then
        some ⟨"presupuesto_cerca_limite", "media", p.categoria, g,
          p.monto_maximo, some (g / p.monto_maximo * 100), none⟩
      else none := by
  unfold alertaPresupuesto
  rw [hb]
  have hne : p.monto_maximo ≠ 0 := ne_of_gt hm
  by_cases h1 : p.monto_maximo < g
  · simp [hne, h1]
  · by_cases h2 : 4 / 5 * p.monto_maximo ≤ g
    · simp [hne, h1, h2, porcentajeAlMenos80,
        (porcentaje_iff_cuatro_quintos hm).mpr h2]
    · simp [hne, h1, h2, porcentajeAlMenos80,
        (porcentaje_iff_cuatro_quintos hm).not.mpr h2]

/-- The advisor's internal budget check can only ever produce the near-limit
wording: the exceeded branch sits behind `elif` of the `> 90` test, and any
percentage above 100 is already above 90. -/
lemma alertaAsesor_no_excedido (ps : List Presupuesto) (c : String) (g : ℚ)
    (a : AlertaIA) (h : alertaAsesor ps c g = some a) :
    a.esExcedido = false := by
  unfold alertaAsesor at h
  cases hfind : presupuestoDeCategoria ps c with
  | none => rw [hfind] at h; cases h
  | some presupuesto =>
    rw [hfind] at h
    dsimp only at h
    by_cases h0 : presupuesto = 0
    · rw [if_pos h0] at h
      by_cases hg : 0 < g
      · rw [if_pos hg] at h
        cases h
        rfl
      · rw [if_neg hg] at h
        cases h
    · rw [if_neg h0] at h
      by_cases h90 : 90 < g / presupuesto * 100
      · rw [if_pos h90] at h
        cases h
        rfl
      · rw [if_neg h90] at h
        by_cases h100 : 100 < g / presupuesto * 100
        · exact absurd (lt_trans (by norm_num) h100) h90
        · rw [if_neg h100] at h
          cases h

/-- Converting an already converted date changes nothing, so the column
assignment of `calcular_tendencia` is idempotent. -/
lemma actualizarFecha_idem (t : Transaccion) :
    actualizarFecha (actualizarFecha t) = actualizarFecha t :=
  rfl

/-- Faithfulness of the rational outlier test: for a nonnegative threshold
and a nonnegative variance, the squared comparison of `esGastoInusual` is
exactly the source's `monto > media + umbral * sqrt(varianza)` read over the
reals. -/
lemma esGastoInusual_iff_raiz (monto media varianza umbral : ℚ)
    (hu : 0 ≤ umbral) (hv : 0 ≤ varianza) :
    esGastoInusual monto media varianza umbral = true ↔
      (media : ℝ) + umbral * Real.sqrt varianza < monto := by
  have hs : (0 : ℝ) ≤ Real.sqrt varianza := Real.sqrt_nonneg _
  have hu' : (0 : ℝ) ≤ (umbral : ℚ) := by exact_mod_cast hu
  have hks : (0 : ℝ) ≤ umbral * Real.sqrt varianza := mul_nonneg hu' hs
  have hcuad : ((umbral : ℝ) * Real.sqrt varianza) ^ 2 =
      (umbral : ℝ) ^ 2 * varianza := by
    rw [mul_pow, Real.sq_sqrt (by exact_mod_cast hv)]
  unfold esGastoInusual
  simp only [Bool.and_eq_true, decide_eq_true_eq]
  constructor
  · rintro ⟨hlt, hsq⟩
    have hd : (0 : ℝ) < (monto : ℝ) - media := by
      have : (media : ℝ) < monto := by exact_mod_cast hlt
      linarith
    have hsq' : ((umbral : ℝ) * Real.sqrt varianza) ^ 2 <
        ((monto : ℝ) - media) ^ 2 := by
      rw [hcuad]
      exact_mod_cast hsq
    have := lt_of_pow_lt_pow_left₀ 2 (le_of_lt hd) hsq'
    linarith
  · intro h
    have hd : (umbral : ℝ) * Real.sqrt varianza < (monto : ℝ) - media := by
      push_cast at h ⊢
      linarith
    have hdp : (0 : ℝ) < (monto : ℝ) - media := lt_of_le_of_lt hks hd
    refine ⟨by exact_mod_cast (by linarith : (media : ℝ) < monto), ?_⟩
    have hsq' : ((umbral : ℝ) * Real.sqrt varianza) ^ 2 <
        ((monto : ℝ) - media) ^ 2 := pow_lt_pow_left₀ hd hks (by norm_num)
    rw [hcuad] at hsq'
    exact_mod_cast hsq'

/-! ### Concrete example data used by witnesses and counterexamples -/

/-- Expense transaction of user `u1` in category `Food` with the given
amount. -/
def tGasto (montoV : ℚ) : Transaccion :=
  ⟨"t1", "u1", montoV, "Food", "almuerzo", .texto "2024-01-15", "gasto"⟩

/-- Budget of user `u1` for category `Food` with the given ceiling. -/
def pFood (maximoV : ℚ) : Presupuesto :=
  ⟨"b1", "u1", "Food", maximoV, "mensual"⟩

/-- Five expense rows of amounts `[10, 10, 10, 10, 1000]`, the outlier
example of the specification. -/
def ejemploAtipicos : List Transaccion :=
  [tGasto 10, tGasto 10, tGasto 10, tGasto 10, tGasto 1000]

/-- Evaluation of the outlier detector on the `[10, 10, 10, 10, 1000]`
example: the sample deviation is large enough that nothing is flagged. -/
lemma detectar_ejemplo_vacio :
    detectar_gastos_inusuales ejemploAtipicos 2 = [] := by
  simp [detectar_gastos_inusuales, sumaMontos, esGastoInusual, ejemploAtipicos,
    tGasto]
  norm_num

/-! ### Claims -/

/-- Claim C1: for every input collection of transactions and budgets, the
summary of `AsesorFinanciero.get_analisis_ia` satisfies
`ahorro_neto = total_ingresos - total_gastos`, and
`tasa_ahorro = ahorro_neto / total_ingresos * 100` when
`total_ingresos > 0`, else `0`. -/
theorem claim_C1 (ts : List Transaccion) (ps : List Presupuesto) :
    (get_analisis_ia ts ps).resumen.ahorro_neto =
      (get_analisis_ia ts ps).resumen.total_ingresos -
        (get_analisis_ia ts ps).resumen.total_gastos ∧
    (get_analisis_ia ts ps).resumen.tasa_ahorro =
      (if 0 < (get_analisis_ia ts ps).resumen.total_ingresos then
        (get_analisis_ia ts ps).resumen.ahorro_neto /
          (get_analisis_ia ts ps).resumen.total_ingresos * 100
      else 0) := by
  unfold get_analisis_ia
  by_cases h : ts.isEmpty = true <;> simp [h]

/-- Claim C3: for every input, the alerts list of
`AsesorFinanciero.get_analisis_ia` never contains the exceeded-wording
entry, because the `> 90` near-limit test is checked before the `> 100`
exceeded test and subsumes it. -/
theorem claim_C3 (ts : List Transaccion) (ps : List Presupuesto) :
    ((get_analisis_ia ts ps).alertas.all fun a => !a.esExcedido) = true := by
  rw [List.all_eq_true]
  intro a ha
  unfold get_analisis_ia at ha
  by_cases h : ts.isEmpty = true
  · simp [h] at ha
  · simp only [h, Bool.false_eq_true, if_false] at ha
    by_cases hps : ps.isEmpty = true
    · simp [hps] at ha
    · simp only [hps, Bool.false_eq_true, if_false, List.mem_filterMap] at ha
      obtain ⟨par, _, heq⟩ := ha
      simp [alertaAsesor_no_excedido _ _ _ a heq]

/-- Claim C4, counterexample: on the empty collection `calcular_tendencia`
returns the `"neutral"` classification, not the claimed `"sin_datos"`. -/
theorem claim_C4_counterexample :
    (calcular_tendencia [] 30 0).1.tendencia = "neutral" ∧
    (calcular_tendencia [] 30 0).1.tendencia ≠ "sin_datos" := by
  constructor <;> decide

/-- Claim C4, amended: `calcular_tendencia` applied to an empty transaction
collection returns the `"neutral"` classification with
`variacion_porcentual = 0` (and no period totals); the `"sin_datos"`
classification arises only from a zero first-half total on nonempty
input. -/
theorem claim_C4 (dias : ℕ) (ahora : ℤ) :
    calcular_tendencia [] dias ahora = (⟨"neutral", 0, none, none⟩, []) :=
  rfl

/-- Claim C5, counterexample: `detectar_gastos_inusuales` with threshold `2`
on expenses `[10, 10, 10, 10, 1000]` does not return exactly one record. -/
theorem claim_C5_counterexample :
    (detectar_gastos_inusuales ejemploAtipicos 2).length ≠ 1 := by
  rw [detectar_ejemplo_vacio]
  decide

/-- Claim C5, amended: `detectar_gastos_inusuales` with threshold `2.0` on
the five expenses `[10, 10, 10, 10, 1000]` flags nothing: the mean is `208`
and the sample variance (pandas `std`, `ddof=1`) is `196020`, so the cut
`media + 2·σ ≈ 1093.5` exceeds `1000` and the result is empty. -/
theorem claim_C5 :
    detectar_gastos_inusuales ejemploAtipicos 2 = [] :=
  detectar_ejemplo_vacio

/-- Claim C7: the advisor's independently computed totals agree with the
analyzer's summary: `get_analisis_ia` reports the same `total_gastos` and
`total_ingresos` as `analizar_transacciones`. -/
theorem claim_C7 (ts : List Transaccion) (ps : List Presupuesto) :
    (get_analisis_ia ts ps).resumen.total_gastos =
      (analizar_transacciones ts).total_gastos ∧
    (get_analisis_ia ts ps).resumen.total_ingresos =
      (analizar_transacciones ts).total_ingresos := by
  by_cases h : ts.isEmpty = true
  · simp [get_analisis_ia, analizar_transacciones, h]
  · refine ⟨?_, ?_⟩
    · simp only [get_analisis_ia, analizar_transacciones, h, Bool.false_eq_true,
        if_false]
      exact gastosPorCategoria_suma _
    · simp [get_analisis_ia, analizar_transacciones, h]

/-- Claim C2: `verificar_presupuestos` is one `filterMap` pass over the
user's budget rows (so each row contributes at most one alert), and for any
row with positive ceiling whose category appears among the user's grouped
expenses with total spend `g`, the row contributes exactly one
exceeded/high alert carrying the overage and the utilization percentage
when `g` strictly exceeds the ceiling, exactly one near-limit/medium alert
when `g` is at least 80% of the ceiling without exceeding it, and no alert
below 80%. -/
theorem claim_C2 (ts : List Transaccion) (ps : List Presupuesto)
    (usuarioId : String) :
    (verificar_presupuestos ts ps usuarioId =
      (ps.filter (·.usuario_id == usuarioId)).filterMap
        (alertaPresupuesto (gastosPorCategoria (gastosUsuario ts usuarioId)))) ∧
    (∀ (p : Presupuesto) (g : ℚ),
      buscarCategoria p.categoria
          (gastosPorCategoria (gastosUsuario ts usuarioId)) = some g →
      0 < p.monto_maximo →
      alertaPresupuesto (gastosPorCategoria (gastosUsuario ts usuarioId)) p =
        if p.monto_maximo < g then
          some ⟨"presupuesto_excedido", "alta", p.categoria, g, p.monto_maximo,
            some (g / p.monto_maximo * 100), some (g - p.monto_maximo)⟩
        else if 4 / 5 * p.monto_maximo ≤ g then
          some ⟨"presupuesto_cerca_limite", "media", p.categoria, g,
            p.monto_maximo, some (g / p.monto_maximo * 100), none⟩
        else none) :=
  ⟨verificar_presupuestos_eq_filterMap ts ps usuarioId,
    fun p g hb hm => alertaPresupuesto_spec _ p g hb hm⟩

/-- Claim C2, witness: a 120 expense against a 100 ceiling yields exactly
one exceeded/high alert citing the 20 overage and 120% utilization; an 80
expense yields exactly one near-limit/medium alert; a 79 expense yields
none. -/
theorem claim_C2_witness :
    verificar_presupuestos [tGasto 120] [pFood 100] "u1" =
      [⟨"presupuesto_excedido", "alta", "Food", 120, 100, some 120, some 20⟩] ∧
    verificar_presupuestos [tGasto 80] [pFood 100] "u1" =
      [⟨"presupuesto_cerca_limite", "media", "Food", 80, 100, some 80, none⟩] ∧
    verificar_presupuestos [tGasto 79] [pFood 100] "u1" = [] := by
  have hf : List.filter (fun x => x.usuario_id == "u1") [pFood 100] =
      [pFood 100] := by
    simp [pFood]
  refine ⟨?_, ?_, ?_⟩
  · have h := claim_C2 [tGasto 120] [pFood 100] ("u1")
    have hb : buscarCategoria (pFood 100).categoria
        (gastosPorCategoria (gastosUsuario [tGasto 120] ("u1"))) = some 120 := by
      simp [buscarCategoria, gastosPorCategoria, gastosUsuario,
        categoriasOrdenadas, ordenarCadenas, insertarOrdenado, sumaMontos,
        tGasto, pFood, List.dedup]
    have h2 := h.2 (pFood 100) 120 hb (by norm_num [pFood])
    rw [h.1, hf, List.filterMap_cons, h2]
    norm_num [pFood]
  · have h := claim_C2 [tGasto 80] [pFood 100] ("u1")
    have hb : buscarCategoria (pFood 100).categoria
        (gastosPorCategoria (gastosUsuario [tGasto 80] ("u1"))) = some 80 := by
      simp [buscarCategoria, gastosPorCategoria, gastosUsuario,
        categoriasOrdenadas, ordenarCadenas, insertarOrdenado, sumaMontos,
        tGasto, pFood, List.dedup]
    have h2 := h.2 (pFood 100) 80 hb (by norm_num [pFood])
    rw [h.1, hf, List.filterMap_cons, h2]
    norm_num [pFood]
  · have h := claim_C2 [tGasto 79] [pFood 100] ("u1")
    have hb : buscarCategoria (pFood 100).categoria
        (gastosPorCategoria (gastosUsuario [tGasto 79] ("u1"))) = some 79 := by
      simp [buscarCategoria, gastosPorCategoria, gastosUsuario,
        categoriasOrdenadas, ordenarCadenas, insertarOrdenado, sumaMontos,
        tGasto, pFood, List.dedup]
    have h2 := h.2 (pFood 100) 79 hb (by norm_num [pFood])
    rw [h.1, hf, List.filterMap_cons, h2]
    norm_num [pFood]

/-- Claim C10: with two identical budget rows for the same user and
category, `verificar_presupuestos` processes each row independently and
emits the same alert twice: duplicate `(user, category)` budgets produce
duplicate alerts rather than a single winning budget. -/
theorem claim_C10 (ts : List Transaccion) (usuarioId : String)
    (p : Presupuesto) (g : ℚ) (hu : p.usuario_id = usuarioId)
    (hb : buscarCategoria p.categoria
      (gastosPorCategoria (gastosUsuario ts usuarioId)) = some g)
    (hm : 0 < p.monto_maximo) (hexc : p.monto_maximo < g) :
    verificar_presupuestos ts [p, p] usuarioId =
      [⟨"presupuesto_excedido", "alta", p.categoria, g, p.monto_maximo,
        some (g / p.monto_maximo * 100), some (g - p.monto_maximo)⟩,
       ⟨"presupuesto_excedido", "alta", p.categoria, g, p.monto_maximo,
        some (g / p.monto_maximo * 100), some (g - p.monto_maximo)⟩] := by
  rw [verificar_presupuestos_eq_filterMap]
  have halerta := alertaPresupuesto_spec _ p g hb hm
  rw [if_pos hexc] at halerta
  simp [hu, halerta]

/-- Claim C10, witness: the duplicated `Food` budget of ceiling 100 against
a 120 expense yields the identical exceeded alert twice. -/
theorem claim_C10_witness :
    verificar_presupuestos [tGasto 120] [pFood 100, pFood 100] "u1" =
      [⟨"presupuesto_excedido", "alta", "Food", 120, 100, some 120, some 20⟩,
       ⟨"presupuesto_excedido", "alta", "Food", 120, 100, some 120, some 20⟩] := by
  have hb : buscarCategoria (pFood 100).categoria
      (gastosPorCategoria (gastosUsuario [tGasto 120] ("u1"))) = some 120 := by
    simp [buscarCategoria, gastosPorCategoria, gastosUsuario,
      categoriasOrdenadas, ordenarCadenas, insertarOrdenado, sumaMontos,
      tGasto, pFood, List.dedup]
  have h := claim_C10 [tGasto 120] ("u1") (pFood 100) 120 rfl hb
    (by norm_num [pFood]) (by norm_num [pFood])
  rw [h]
  norm_num [pFood]

/-- Claim C6: the specification requires the zero-ceiling division to be
guarded and the utilization treated as zero; the code has no such guard.
At a 120 expense against a ceiling of 0, the source computes
`120 / 0` (a non-finite float, modelled `none`) and still emits the
exceeded/high alert carrying that non-finite percentage, never a zero
one. -/
theorem claim_C6_evaluacion :
    verificar_presupuestos [tGasto 120] [pFood 0] "u1" =
      [⟨"presupuesto_excedido", "alta", "Food", 120, 0, none, some 120⟩] ∧
    (verificar_presupuestos [tGasto 120] [pFood 0] "u1").map (·.porcentaje) ≠
      [some 0] := by
  have h : verificar_presupuestos [tGasto 120] [pFood 0] "u1" =
      [⟨"presupuesto_excedido", "alta", "Food", 120, 0, none, some 120⟩] := by
    simp [verificar_presupuestos, gastosUsuario, gastosPorCategoria,
      categoriasOrdenadas, ordenarCadenas, insertarOrdenado, sumaMontos,
      alertaPresupuesto, buscarCategoria, tGasto, pFood, List.dedup,
      List.filterMap]
  refine ⟨h, ?_⟩
  rw [h]
  simp

/-- Claim C8, counterexample: `calcular_tendencia` does mutate its input:
after a call on a singleton list whose date is still the raw string
`"2024-01-15"`, the caller's transactions hold the converted timestamp
instead, so the collection differs from the one passed in. -/
theorem claim_C8_counterexample :
    (calcular_tendencia [tGasto 50] 30 20000).2 ≠ [tGasto 50] := by
  simp only [calcular_tendencia]
  rw [apply_ite Prod.snd]
  simp [tGasto, actualizarFecha, apply_ite Prod.snd]

/-- Claim C8, amended: `analizar_transacciones`, `detectar_gastos_inusuales`,
`verificar_presupuestos` and `get_analisis_ia` perform no assignment to
their inputs (embedded as pure functions) and `get_analisis_ia` is
deterministic, so calling it twice on identical inputs yields identical
output; `calcular_tendencia`, however, reassigns the `fecha` column of the
transactions passed to it, leaving the caller's collection with every date
converted — it is left unchanged only when the dates were already
converted, as after a second call. -/
theorem claim_C8 (dias : ℕ) (ahora : ℤ) (ts : List Transaccion)
    (ps : List Presupuesto) :
    (calcular_tendencia ts dias ahora).2 = ts.map actualizarFecha ∧
    (calcular_tendencia (ts.map actualizarFecha) dias ahora).2 =
      ts.map actualizarFecha ∧
    get_analisis_ia ts ps = get_analisis_ia ts ps := by
  have hmapa : ∀ us : List Transaccion,
      (calcular_tendencia us dias ahora).2 = us.map actualizarFecha := by
    intro us
    unfold calcular_tendencia
    by_cases h : us.isEmpty = true
    · rw [List.isEmpty_iff.mp h]
      simp
    · simp only [h, Bool.false_eq_true, if_false]
      rw [apply_ite Prod.snd]
      simp
  refine ⟨hmapa ts, ?_, rfl⟩
  rw [hmapa (ts.map actualizarFecha), List.map_map]
  exact List.map_congr_left fun t _ => actualizarFecha_idem t

end FinanciaUNT
